import Mathlib

/-!
Shallow embedding of the CwaWeather backend (src/server.js): a thin HTTP
proxy that fetches the CWA F-C0032-001 36-hour forecast for a fixed list of
Taiwanese localities, normalizes the upstream parallel-array payload into
flat forecast records, and maps thrown errors to HTTP responses.

The upstream HTTP call (axios) is I/O; it is modelled as an explicit
parameter of type `Except JsError Envelope` (the resolved promise or the
thrown error).  Everything after that point in server.js is pure and is
translated directly.
-/

/-- Upstream payload: a time-slot parameter value (`parameter.parameterName`).
The optional `parameterUnit` is never read by server.js and is omitted. -/
structure Parameter where
  parameterName : String
  deriving Repr, DecidableEq

/-- Upstream payload: one forecast time window of one weather element. -/
structure TimeSlot where
  startTime : String
  endTime : String
  parameter : Parameter
  deriving Repr, DecidableEq

/-- Upstream payload: one weather element (`elementName` such as "Wx", "PoP",
"MinT", "MaxT", "CI") with its ordered list of time slots. -/
structure WeatherElement where
  elementName : String
  time : List TimeSlot
  deriving Repr, DecidableEq

/-- Upstream payload: one locality block. -/
structure LocationBlock where
  locationName : String
  weatherElement : List WeatherElement
  deriving Repr, DecidableEq

/-- Upstream payload: the `records` object of the envelope. -/
structure Records where
  datasetDescription : String
  issueTime : String
  location : List LocationBlock
  deriving Repr, DecidableEq

/-- Upstream payload: the whole JSON envelope (`response.data`). -/
structure Envelope where
  records : Records
  deriving Repr, DecidableEq

/-- Output: one flat forecast record (server.js lines 71-80). -/
structure Forecast where
  startTime : String
  endTime : String
  weather : String
  rain : String
  minTemp : String
  maxTemp : String
  comfort : String
  windSpeed : String
  deriving Repr, DecidableEq

/-- Output: the normalized weather payload (server.js lines 58-63). -/
structure WeatherData where
  city : String
  datasetDescription : String
  dataUpdateTime : String
  forecasts : List Forecast
  deriving Repr, DecidableEq

/-- Body of an upstream (axios) error response: an optional `message` field
plus whatever other fields the upstream body carried, kept verbatim so the
route can return the body as `details`. -/
structure UpstreamBody where
  message : Option String
  extra : List (String × String)
  deriving Repr, DecidableEq

/-- The `response` field an axios error carries on a non-2xx upstream reply. -/
structure AxiosErrorResponse where
  status : Nat
  data : UpstreamBody
  deriving Repr, DecidableEq

/-- A thrown JavaScript error as handleWeatherRequest observes it: its
`message` string and its optional axios `response` field. -/
structure JsError where
  message : String
  response : Option AxiosErrorResponse
  deriving Repr, DecidableEq

/-- JavaScript truthiness of `CWA_API_KEY` (a string env var or undefined):
`!CWA_API_KEY` is true exactly when the variable is undefined or the empty
string. -/
def jsFalsy (s : Option String) : Bool :=
  match s with
  | none => true
  | some v => v == ""

/-- JavaScript `a || b` on an optional string `a`: the fallback `b` is used
when `a` is undefined or the empty string. -/
def jsOrElse (m : Option String) (fallback : String) : String :=
  match m with
  | some s => if s = "" then fallback else s
  | none => fallback

/-- Does the character list start with the given pattern list. -/
def listStartsWith : List Char → List Char → Bool
  | _, [] => true
  | [], _ :: _ => false
  | c :: cs, p :: ps => c == p && listStartsWith cs ps

/-- Does the character list contain the pattern list as a contiguous run. -/
def listContains (pat : List Char) : List Char → Bool
  | [] => listStartsWith [] pat
  | c :: rest => listStartsWith (c :: rest) pat || listContains pat rest

/-- JavaScript `s.includes(sub)`. -/
def jsIncludes (s sub : String) : Bool :=
  listContains sub.data s.data

/-- Replace the first occurrence of `pat` (non-empty) in a character list. -/
def replaceFirstAux (pat rep : List Char) : List Char → List Char
  | [] => []
  | c :: rest =>
    if listStartsWith (c :: rest) pat then rep ++ (c :: rest).drop pat.length
    else c :: replaceFirstAux pat rep rest

/-- JavaScript `s.replace(pat, rep)` with a string pattern: only the first
occurrence is replaced. -/
def jsReplaceFirst (s pat rep : String) : String :=
  String.mk (replaceFirstAux pat.data rep.data s.data)

/-- JavaScript `s.toLowerCase()`, restricted to the character ranges the
configured city names actually use (CJK characters are fixed points). -/
def jsToLower (s : String) : String :=
  String.mk (s.data.map Char.toLower)

/-- The configured locality list TAIWAN_CITIES (server.js lines 14-19). -/
def TAIWAN_CITIES : List String :=
  ["新竹縣", "桃園市", "新竹市", "苗栗縣"]

/-- Seed forecast record for one time window (server.js lines 71-80): start
and end time from the reference element's slot, every other field the empty
string. -/
def emptyForecast (s e : String) : Forecast :=
  { startTime := s, endTime := e, weather := "", rain := "", minTemp := "",
    maxTemp := "", comfort := "", windSpeed := "" }

/-- The switch on `element.elementName` (server.js lines 84-104): writes the
slot's `parameter.parameterName` into the field mapped to the element kind;
unrecognized kinds (notably "WS") leave the record unchanged. -/
def applyElement (f : Forecast) (name : String) (value : Parameter) : Forecast :=
  if name = "Wx" then { f with weather := value.parameterName }
  else if name = "PoP" then { f with rain := value.parameterName ++ "%" }
  else if name = "MinT" then { f with minTemp := value.parameterName ++ "°C" }
  else if name = "MaxT" then { f with maxTemp := value.parameterName ++ "°C" }
  else if name = "CI" then { f with comfort := value.parameterName }
  else f

/-- One iteration of the inner forEach (server.js lines 82-105): reading
`element.time[i].parameter` throws (None) when slot `i` is absent, otherwise
the switch updates the record. -/
def elementStep (i : Nat) (f : Forecast) (e : WeatherElement) : Option Forecast :=
  match e.time[i]? with
  | some slot => some (applyElement f e.elementName slot.parameter)
  | none => none

/-- Builds the forecast record for slot index `i` (server.js lines 70-107):
seeds start/end from the first element's slot `i`, then folds the switch over
every weather element of the block. -/
def buildForecast (elements : List WeatherElement) (i : Nat) : Option Forecast :=
  match elements with
  | [] => none
  | first :: _ =>
    match first.time[i]? with
    | none => none
    | some slot0 =>
      elements.foldlM (elementStep i) (emptyForecast slot0.startTime slot0.endTime)

/-- The normalizer (server.js lines 58-110): uses the first element's slot
count as the canonical count and produces one record per slot index, in input
order.  Reading `weatherElements[0]` of an empty element list, or a missing
slot `i` of some element, is a JavaScript TypeError, modelled as None. -/
def normalizeLocation (locationName desc issue : String) (locationData : LocationBlock) :
    Option WeatherData :=
  match locationData.weatherElement with
  | [] => none
  | first :: rest =>
    match (List.range first.time.length).mapM (buildForecast (first :: rest)) with
    | some fs =>
      some { city := locationName, datasetDescription := desc,
             dataUpdateTime := issue, forecasts := fs }
    | none => none

/-- The configuration-error message thrown when CWA_API_KEY is unset
(server.js line 34). -/
def configErrorMessage : String :=
  "伺服器設定錯誤: 請在 .env 檔案中設定 CWA_API_KEY"

/-- getWeatherByLocation (server.js lines 31-111).  The axios call is the
only I/O; its outcome is the `fetchResult` parameter, and the guard on
CWA_API_KEY throws before that outcome is ever inspected. -/
def getWeatherByLocation (apiKey : Option String)
    (fetchResult : Except JsError Envelope) (locationName : String) :
    Except JsError WeatherData :=
  if jsFalsy apiKey then
    .error { message := configErrorMessage, response := none }
  else
    match fetchResult with
    | .error e => .error e
    | .ok resp =>
      match resp.records.location.find? (fun loc => loc.locationName == locationName) with
      | none =>
        .error { message := "查無資料: 無法取得 " ++ locationName ++ " 天氣資料",
                 response := none }
      | some locationData =>
        match normalizeLocation locationName resp.records.datasetDescription
            resp.records.issueTime locationData with
        | some w => .ok w
        | none =>
          .error { message := "TypeError: Cannot read properties of undefined",
                   response := none }

/-- Bodies of the JSON responses the app can produce. -/
inductive ResBody where
  | success (data : WeatherData)
  | errBody (error message : String)
  | upstreamErr (error message : String) (details : UpstreamBody)
  | health (status timestamp : String)
  | discovery (message : String) (endpoints : List (String × String))
  | notFound (error : String)
  deriving Repr, DecidableEq

/-- An HTTP response: status code plus JSON body. -/
structure HttpResponse where
  status : Nat
  body : ResBody
  deriving Repr, DecidableEq

/-- handleWeatherRequest's catch block plus success path (server.js lines
116-148): classification is by message substring and by presence of the
axios `response` field, in that order. -/
def handleWeatherRequest (locationName : String)
    (result : Except JsError WeatherData) : HttpResponse :=
  match result with
  | .ok data => { status := 200, body := .success data }
  | .error e =>
    if jsIncludes e.message "CWA_API_KEY" then
      { status := 500, body := .errBody "伺服器設定錯誤" e.message }
    else
      match e.response with
      | some r =>
        { status := r.status,
          body := .upstreamErr "CWA API 錯誤"
            (jsOrElse r.data.message "無法取得天氣資料") r.data }
      | none =>
        { status := 500,
          body := .errBody "伺服器錯誤"
            ("無法取得 " ++ locationName ++ " 天氣資料，請稍後再試") }

/-- Slug derivation as written inline in the root discovery handler
(server.js line 161). -/
def rootEndpointSlug (city : String) : String :=
  jsToLower (jsReplaceFirst (jsReplaceFirst city "縣" "county") "市" "city")

/-- Slug derivation as written inline in the route-registration loop
(server.js line 178); textually identical to the one in the root handler. -/
def routeRegistrationSlug (city : String) : String :=
  jsToLower (jsReplaceFirst (jsReplaceFirst city "縣" "county") "市" "city")

/-- The `endpoints` object of the discovery document (server.js lines
155-163): the health path plus one entry per configured city. -/
def discoveryEndpoints : List (String × String) :=
  ("health", "/api/health") ::
    TAIWAN_CITIES.map (fun city => (city, "/api/weather/" ++ rootEndpointSlug city))

/-- The weather routes registered by the forEach loop (server.js lines
177-180): path to locality name. -/
def registeredWeatherRoutes : List (String × String) :=
  TAIWAN_CITIES.map (fun city => ("/api/weather/" ++ routeRegistrationSlug city, city))

/-- Printed components of a timestamp, as they appear in
`Date.prototype.toISOString` output. -/
structure DateTime where
  year : Nat
  month : Nat
  day : Nat
  hour : Nat
  minute : Nat
  second : Nat
  millis : Nat
  deriving Repr, DecidableEq

/-- The ASCII digit character for `n % 10`. -/
def digitChar (n : Nat) : Char :=
  Char.ofNat (48 + n % 10)

/-- Two-digit zero-padded field of toISOString output. -/
def twoDigits (n : Nat) : List Char :=
  [digitChar (n / 10), digitChar n]

/-- toISOString: fixed-width `YYYY-MM-DDTHH:MM:SS.mmmZ` rendering. -/
def toISOString (d : DateTime) : String :=
  String.mk
    ([digitChar (d.year / 1000), digitChar (d.year / 100), digitChar (d.year / 10),
      digitChar d.year] ++ ['-'] ++ twoDigits d.month ++ ['-'] ++ twoDigits d.day ++
      ['T'] ++ twoDigits d.hour ++ [':'] ++ twoDigits d.minute ++ [':'] ++
      twoDigits d.second ++ ['.'] ++
      [digitChar (d.millis / 100), digitChar (d.millis / 10), digitChar d.millis] ++
      ['Z'])

/-- Value of an ASCII digit character, None on any other character. -/
def digitVal (c : Char) : Option Nat :=
  if c.isDigit then some (c.toNat - 48) else none

/-- ISO8601 parser for the exact `YYYY-MM-DDTHH:MM:SS.mmmZ` shape that
toISOString emits, recovering the printed components. -/
def parseISO8601 (s : String) : Option DateTime :=
  match s.data with
  | [y1, y2, y3, y4, q1, m1, m2, q2, d1, d2, qT, h1, h2, q3, n1, n2, q4,
     s1, s2, q5, t1, t2, t3, qZ] =>
    if q1 = '-' ∧ q2 = '-' ∧ qT = 'T' ∧ q3 = ':' ∧ q4 = ':' ∧ q5 = '.' ∧ qZ = 'Z' then
      match digitVal y1, digitVal y2, digitVal y3, digitVal y4, digitVal m1,
          digitVal m2, digitVal d1, digitVal d2, digitVal h1, digitVal h2,
          digitVal n1, digitVal n2, digitVal s1, digitVal s2, digitVal t1,
          digitVal t2, digitVal t3 with
      | some a1, some a2, some a3, some a4, some b1, some b2, some c1, some c2,
        some e1, some e2, some f1, some f2, some g1, some g2, some k1, some k2,
        some k3 =>
        some { year := a1 * 1000 + a2 * 100 + a3 * 10 + a4,
               month := b1 * 10 + b2, day := c1 * 10 + c2,
               hour := e1 * 10 + e2, minute := f1 * 10 + f2,
               second := g1 * 10 + g2, millis := k1 * 100 + k2 * 10 + k3 }
      | _, _, _, _, _, _, _, _, _, _, _, _, _, _, _, _, _ => none
    else none
  | _ => none

/-- The whole express app as a function of the configuration (API key), the
outcome of the upstream call for each locality, the current time, and the
request path: route matching in registration order, with the 404 handler as
the final fallback (server.js lines 154-198). -/
def dispatch (apiKey : Option String) (fetch : String → Except JsError Envelope)
    (now : DateTime) (path : String) : HttpResponse :=
  if path = "/" then
    { status := 200, body := .discovery "歡迎使用 CWA 天氣預報 API" discoveryEndpoints }
  else if path = "/api/health" then
    { status := 200, body := .health "OK" (toISOString now) }
  else
    match registeredWeatherRoutes.find? (fun r => r.1 == path) with
    | some r => handleWeatherRequest r.2 (getWeatherByLocation apiKey (fetch r.2) r.2)
    | none => { status := 404, body := .notFound "找不到此路徑" }

/-! Helper lemmas about the embedding. -/

/-- List.mapM over Option succeeds pointwise: if every entry maps to some of
a described value, mapM returns the map of the describing function. -/
theorem optionMapM_eq_map {α β : Type} (f : α → Option β) (g : α → β) :
    ∀ l : List α, (∀ a ∈ l, f a = some (g a)) → l.mapM f = some (l.map g) := by
  have aux : ∀ l : List α, (∀ a ∈ l, f a = some (g a)) →
      List.mapM' f l = some (l.map g) := by
    intro l
    induction l with
    | nil => intro _; rfl
    | cons a t ih =>
      intro h
      have ha := h a (List.mem_cons_self a t)
      have ht := ih (fun x hx => h x (List.mem_cons_of_mem a hx))
      simp [List.mapM'_cons, ha, ht]
  intro l h
  rw [← List.mapM'_eq_mapM]
  exact aux l h

/-- List.mapM over Option succeeds when every entry succeeds. -/
theorem optionMapM_isSome {α β : Type} (f : α → Option β) :
    ∀ l : List α, (∀ a ∈ l, (f a).isSome = true) → (l.mapM f).isSome = true := by
  have aux : ∀ l : List α, (∀ a ∈ l, (f a).isSome = true) →
      (List.mapM' f l).isSome = true := by
    intro l
    induction l with
    | nil => intro _; rfl
    | cons a t ih =>
      intro h
      have ha := h a (List.mem_cons_self a t)
      have ht := ih (fun x hx => h x (List.mem_cons_of_mem a hx))
      obtain ⟨b, hb⟩ := Option.isSome_iff_exists.mp ha
      obtain ⟨bs, hbs⟩ := Option.isSome_iff_exists.mp ht
      simp [List.mapM'_cons, hb, hbs]
  intro l h
  rw [← List.mapM'_eq_mapM]
  exact aux l h

/-- Indexing within bounds yields the getD value. -/
theorem getElem?_eq_getD {α : Type} (l : List α) (i : Nat) (d : α) (h : i < l.length) :
    l[i]? = some (l.getD i d) := by
  simp [List.getD_eq_getElem?_getD, List.getElem?_eq_getElem h]

/-- Requesting a configured city's weather path invokes handleWeatherRequest
for that city on the outcome of getWeatherByLocation. -/
theorem dispatch_weather_route (apiKey : Option String)
    (fetch : String → Except JsError Envelope) (now : DateTime) (city : String)
    (hcity : city ∈ TAIWAN_CITIES) :
    dispatch apiKey fetch now ("/api/weather/" ++ routeRegistrationSlug city) =
      handleWeatherRequest city (getWeatherByLocation apiKey (fetch city) city) := by
  fin_cases hcity <;> rfl

/-- The full list of paths the app matches before the 404 fallback. -/
def allRoutePaths : List String :=
  "/" :: "/api/health" :: registeredWeatherRoutes.map (fun r => r.1)

/-- A path matched by none of the registered routes falls through to the 404
handler. -/
theorem dispatch_unmatched (apiKey : Option String)
    (fetch : String → Except JsError Envelope) (now : DateTime) (path : String)
    (h : path ∉ allRoutePaths) :
    dispatch apiKey fetch now path = { status := 404, body := .notFound "找不到此路徑" } := by
  simp only [allRoutePaths, List.mem_cons, List.mem_map, not_or, not_exists] at h
  obtain ⟨h1, h2, h3⟩ := h
  have hfind : registeredWeatherRoutes.find? (fun r => r.1 == path) = none := by
    rw [List.find?_eq_none]
    intro r hr
    simp only [beq_iff_eq]
    intro he
    exact h3 r ⟨hr, by simpa using he⟩
  simp [dispatch, h1, h2, hfind]

/-- Reading back the digit character of n yields n mod 10. -/
theorem digitVal_digitChar (n : Nat) : digitVal (digitChar n) = some (n % 10) := by
  simp only [digitChar, digitVal]
  have h : n % 10 < 10 := Nat.mod_lt _ (by omega)
  generalize n % 10 = k at *
  interval_cases k <;> decide

/-- Sample weather elements used to witness the normalization theorems. -/
def wxSample : WeatherElement :=
  ⟨"Wx", [⟨"2026-10-11 06:00:00", "2026-10-11 18:00:00", ⟨"晴時多雲"⟩⟩,
          ⟨"2026-10-11 18:00:00", "2026-10-12 06:00:00", ⟨"多雲"⟩⟩]⟩

/-- Sample rain-probability element. -/
def popSample : WeatherElement :=
  ⟨"PoP", [⟨"2026-10-11 06:00:00", "2026-10-11 18:00:00", ⟨"10"⟩⟩,
           ⟨"2026-10-11 18:00:00", "2026-10-12 06:00:00", ⟨"20"⟩⟩]⟩

/-- Sample minimum-temperature element. -/
def minTSample : WeatherElement :=
  ⟨"MinT", [⟨"2026-10-11 06:00:00", "2026-10-11 18:00:00", ⟨"18"⟩⟩,
            ⟨"2026-10-11 18:00:00", "2026-10-12 06:00:00", ⟨"17"⟩⟩]⟩

/-- Sample maximum-temperature element. -/
def maxTSample : WeatherElement :=
  ⟨"MaxT", [⟨"2026-10-11 06:00:00", "2026-10-11 18:00:00", ⟨"27"⟩⟩,
            ⟨"2026-10-11 18:00:00", "2026-10-12 06:00:00", ⟨"24"⟩⟩]⟩

/-- Sample comfort-index element. -/
def ciSample : WeatherElement :=
  ⟨"CI", [⟨"2026-10-11 06:00:00", "2026-10-11 18:00:00", ⟨"舒適"⟩⟩,
          ⟨"2026-10-11 18:00:00", "2026-10-12 06:00:00", ⟨"舒適"⟩⟩]⟩

/-- Sample upstream error body used by the error-mapping witnesses. -/
def sampleUpstreamBody : UpstreamBody := ⟨some "service unavailable", []⟩

/-- Sample axios error for an upstream 503. -/
def sample503Error : JsError :=
  ⟨"Request failed with status code 503", some ⟨503, sampleUpstreamBody⟩⟩

/-- Dummy upstream outcome used to close route-level statements. -/
def dummyFetch : String → Except JsError Envelope :=
  fun _ => .error ⟨"network error", none⟩

/-- Dummy request time used to close route-level statements. -/
def dummyNow : DateTime := ⟨2026, 1, 1, 0, 0, 0, 0⟩

/-- C2 counterexample: for the concrete upstream 503 failure with body
message "service unavailable", the route does answer with status 503,
message and details passed through, but the error label the code emits is
the literal "CWA API 錯誤", not the string "upstream API error" the claim
states. -/
theorem c2_counterexample :
    handleWeatherRequest "新竹縣" (.error sample503Error) =
      { status := 503,
        body := .upstreamErr "CWA API 錯誤" "service unavailable" sampleUpstreamBody } ∧
    ResBody.upstreamErr "CWA API 錯誤" "service unavailable" sampleUpstreamBody ≠
      ResBody.upstreamErr "upstream API error" "service unavailable" sampleUpstreamBody := by
  exact ⟨rfl, by decide⟩

/-- C2 (amended): for every upstream HTTP failure carrying a response with
status S and body B, and whose message does not contain "CWA_API_KEY", the
weather route responds with status S and body error "CWA API 錯誤",
message B.message (or the fallback "無法取得天氣資料" when B.message is
absent or empty), details B. -/
theorem c2_upstream_error_mapping (locationName : String) (e : JsError) (S : Nat)
    (B : UpstreamBody) (hresp : e.response = some ⟨S, B⟩)
    (hmsg : jsIncludes e.message "CWA_API_KEY" = false) :
    handleWeatherRequest locationName (.error e) =
      { status := S,
        body := .upstreamErr "CWA API 錯誤" (jsOrElse B.message "無法取得天氣資料") B } ∧
    (B.message = none → jsOrElse B.message "無法取得天氣資料" = "無法取得天氣資料") ∧
    (∀ m, B.message = some m → m ≠ "" → jsOrElse B.message "無法取得天氣資料" = m) := by
  refine ⟨?_, ?_, ?_⟩
  · simp [handleWeatherRequest, hmsg, hresp]
  · intro h; simp [jsOrElse, h]
  · intro m hm hne; simp [jsOrElse, hm, hne]

/-- C2 witness: the amended mapping evaluated at the concrete 503 failure. -/
theorem c2_witness :
    handleWeatherRequest "新竹縣" (.error sample503Error) =
      { status := 503,
        body := .upstreamErr "CWA API 錯誤"
          (jsOrElse sampleUpstreamBody.message "無法取得天氣資料") sampleUpstreamBody } ∧
    (sampleUpstreamBody.message = none →
      jsOrElse sampleUpstreamBody.message "無法取得天氣資料" = "無法取得天氣資料") ∧
    (∀ m, sampleUpstreamBody.message = some m → m ≠ "" →
      jsOrElse sampleUpstreamBody.message "無法取得天氣資料" = m) :=
  c2_upstream_error_mapping "新竹縣" sample503Error 503 sampleUpstreamBody rfl (by decide)

/-- C3: with the API key unset (or empty), getWeatherByLocation for a
configured city fails with the configuration error without ever inspecting
the outcome of the outbound call (the result is the same for every possible
fetch outcome), and the city's weather route answers 500 with a body whose
message mentions the missing CWA_API_KEY configuration. -/
theorem c3_missing_api_key (apiKey : Option String) (now : DateTime) (city : String)
    (hkey : jsFalsy apiKey = true) (hcity : city ∈ TAIWAN_CITIES) :
    (∀ fetchResult : Except JsError Envelope,
      getWeatherByLocation apiKey fetchResult city =
        .error { message := configErrorMessage, response := none }) ∧
    (∀ fetch : String → Except JsError Envelope,
      dispatch apiKey fetch now ("/api/weather/" ++ routeRegistrationSlug city) =
        { status := 500, body := .errBody "伺服器設定錯誤" configErrorMessage }) ∧
    jsIncludes configErrorMessage "CWA_API_KEY" = true := by
  have hget : ∀ fetchResult : Except JsError Envelope,
      getWeatherByLocation apiKey fetchResult city =
        .error { message := configErrorMessage, response := none } := by
    intro fr
    simp [getWeatherByLocation, hkey]
  refine ⟨hget, ?_, by decide⟩
  intro fetch
  rw [dispatch_weather_route apiKey fetch now city hcity, hget]
  rfl

/-- C3 witness: the configuration failure evaluated for 新竹縣 with the key
undefined. -/
theorem c3_witness :
    (∀ fetchResult : Except JsError Envelope,
      getWeatherByLocation none fetchResult "新竹縣" =
        .error { message := configErrorMessage, response := none }) ∧
    (∀ fetch : String → Except JsError Envelope,
      dispatch none fetch dummyNow ("/api/weather/" ++ routeRegistrationSlug "新竹縣") =
        { status := 500, body := .errBody "伺服器設定錯誤" configErrorMessage }) ∧
    jsIncludes configErrorMessage "CWA_API_KEY" = true :=
  c3_missing_api_key none dummyNow "新竹縣" rfl (by decide)

/-- C8 counterexample: the unconfigured path /api/weather/unknown does get a
404, but the body the code emits is error "找不到此路徑", not the string
"not found" the claim states. -/
theorem c8_counterexample :
    dispatch none dummyFetch dummyNow "/api/weather/unknown" =
      { status := 404, body := .notFound "找不到此路徑" } ∧
    ResBody.notFound "找不到此路徑" ≠ ResBody.notFound "not found" := by
  exact ⟨rfl, by decide⟩

/-- C8 (amended): every request whose path matches none of the registered
routes (the root, the health route, and one weather route per configured
city) is answered 404 with body error "找不到此路徑". -/
theorem c8_unmatched_404 (apiKey : Option String)
    (fetch : String → Except JsError Envelope) (now : DateTime) (path : String)
    (h : path ∉ allRoutePaths) :
    dispatch apiKey fetch now path =
      { status := 404, body := .notFound "找不到此路徑" } :=
  dispatch_unmatched apiKey fetch now path h

/-- C8 witness: the 404 fallback evaluated at /api/weather/unknown. -/
theorem c8_witness :
    dispatch (some "key") dummyFetch dummyNow "/api/weather/unknown" =
      { status := 404, body := .notFound "找不到此路徑" } :=
  c8_unmatched_404 (some "key") dummyFetch dummyNow "/api/weather/unknown" (by decide)

/-- C10: the catch block classifies every thrown error by message substring
and field presence, not by type: it answers with the configuration-error 500
body if and only if the message contains "CWA_API_KEY"; otherwise with the
upstream pass-through response if and only if the error carries a response
field; otherwise with the generic 500 whose message is the fixed template
depending only on the locality name, so the thrown error's own message text
is not incorporated into it. -/
theorem c10_classification (name : String) (e : JsError) :
    (jsIncludes e.message "CWA_API_KEY" = true →
      handleWeatherRequest name (.error e) =
        { status := 500, body := .errBody "伺服器設定錯誤" e.message }) ∧
    (jsIncludes e.message "CWA_API_KEY" = false → ∀ S B, e.response = some ⟨S, B⟩ →
      handleWeatherRequest name (.error e) =
        { status := S,
          body := .upstreamErr "CWA API 錯誤" (jsOrElse B.message "無法取得天氣資料") B }) ∧
    (jsIncludes e.message "CWA_API_KEY" = false → e.response = none →
      handleWeatherRequest name (.error e) =
        { status := 500,
          body := .errBody "伺服器錯誤" ("無法取得 " ++ name ++ " 天氣資料，請稍後再試") }) ∧
    ((∃ m, (handleWeatherRequest name (.error e)).body = .errBody "伺服器設定錯誤" m) ↔
      jsIncludes e.message "CWA_API_KEY" = true) ∧
    ((∃ lab m B, (handleWeatherRequest name (.error e)).body = .upstreamErr lab m B) ↔
      (jsIncludes e.message "CWA_API_KEY" = false ∧ e.response.isSome = true)) := by
  cases hc : jsIncludes e.message "CWA_API_KEY" with
  | true =>
    have hval : handleWeatherRequest name (.error e) =
        { status := 500, body := .errBody "伺服器設定錯誤" e.message } := by
      simp [handleWeatherRequest, hc]
    refine ⟨fun _ => hval, fun h _ _ _ => absurd h (by decide),
      fun h _ => absurd h (by decide), ?_, ?_⟩
    · rw [hval]
      exact ⟨fun _ => rfl, fun _ => ⟨e.message, rfl⟩⟩
    · rw [hval]
      simp
  | false =>
    cases hr : e.response with
    | none =>
      have hval : handleWeatherRequest name (.error e) =
          { status := 500,
            body := .errBody "伺服器錯誤"
              ("無法取得 " ++ name ++ " 天氣資料，請稍後再試") } := by
        simp [handleWeatherRequest, hc, hr]
      refine ⟨fun h => absurd h (by decide), fun _ S B hSB => absurd hSB (by simp),
        fun _ _ => hval, ?_, ?_⟩
      · rw [hval]
        constructor
        · rintro ⟨m, hm⟩
          simp only [ResBody.errBody.injEq] at hm
          exact absurd hm.1 (by decide)
        · intro h
          exact absurd h (by decide)
      · rw [hval]
        simp
    | some r =>
      obtain ⟨S0, B0⟩ := r
      have hval : handleWeatherRequest name (.error e) =
          { status := S0,
            body := .upstreamErr "CWA API 錯誤"
              (jsOrElse B0.message "無法取得天氣資料") B0 } := by
        simp [handleWeatherRequest, hc, hr]
      refine ⟨fun h => absurd h (by decide), fun _ S B hSB => ?_,
        fun _ h => absurd h (by simp), ?_, ?_⟩
      · obtain ⟨rfl, rfl⟩ : S0 = S ∧ B0 = B := by
          simpa [AxiosErrorResponse.mk.injEq] using hSB
        exact hval
      · rw [hval]
        simp
      · rw [hval]
        exact ⟨fun _ => ⟨rfl, rfl⟩,
          fun _ => ⟨"CWA API 錯誤", jsOrElse B0.message "無法取得天氣資料", B0, rfl⟩⟩

/-- C10 witness: the classification evaluated at a generic error with no
response field and a message free of "CWA_API_KEY". -/
theorem c10_witness :
    (jsIncludes (JsError.mk "boom" none).message "CWA_API_KEY" = true →
      handleWeatherRequest "桃園市" (.error ⟨"boom", none⟩) =
        { status := 500, body := .errBody "伺服器設定錯誤" (JsError.mk "boom" none).message }) ∧
    (jsIncludes (JsError.mk "boom" none).message "CWA_API_KEY" = false →
      ∀ S B, (JsError.mk "boom" none).response = some ⟨S, B⟩ →
      handleWeatherRequest "桃園市" (.error ⟨"boom", none⟩) =
        { status := S,
          body := .upstreamErr "CWA API 錯誤" (jsOrElse B.message "無法取得天氣資料") B }) ∧
    (jsIncludes (JsError.mk "boom" none).message "CWA_API_KEY" = false →
      (JsError.mk "boom" none).response = none →
      handleWeatherRequest "桃園市" (.error ⟨"boom", none⟩) =
        { status := 500,
          body := .errBody "伺服器錯誤" ("無法取得 " ++ "桃園市" ++ " 天氣資料，請稍後再試") }) ∧
    ((∃ m, (handleWeatherRequest "桃園市" (.error ⟨"boom", none⟩)).body =
        .errBody "伺服器設定錯誤" m) ↔
      jsIncludes (JsError.mk "boom" none).message "CWA_API_KEY" = true) ∧
    ((∃ lab m B, (handleWeatherRequest "桃園市" (.error ⟨"boom", none⟩)).body =
        .upstreamErr lab m B) ↔
      (jsIncludes (JsError.mk "boom" none).message "CWA_API_KEY" = false ∧
        (JsError.mk "boom" none).response.isSome = true)) :=
  c10_classification "桃園市" ⟨"boom", none⟩

/-- Envelope whose location list is empty, used to exercise the
locality-missing branch. -/
def emptyEnv : Envelope := ⟨⟨"desc", "time", []⟩⟩

/-- Fetch outcome that resolves with the empty-location envelope. -/
def okFetchEmpty : String → Except JsError Envelope := fun _ => .ok emptyEnv

/-- C4 counterexample: with the upstream reply parsed but missing the 新竹縣
block, the route does answer 500, but the error label the code emits is the
literal "伺服器錯誤", not the string "server error" the claim states. -/
theorem c4_counterexample :
    dispatch (some "key") okFetchEmpty dummyNow "/api/weather/新竹county" =
      { status := 500,
        body := .errBody "伺服器錯誤"
          ("無法取得 " ++ "新竹縣" ++ " 天氣資料，請稍後再試") } ∧
    ResBody.errBody "伺服器錯誤" ("無法取得 " ++ "新竹縣" ++ " 天氣資料，請稍後再試") ≠
      ResBody.errBody "server error" ("無法取得 " ++ "新竹縣" ++ " 天氣資料，請稍後再試") := by
  exact ⟨rfl, by decide⟩

/-- C4 (amended): whenever the key is configured and the upstream reply
parses but contains no block whose locationName equals the requested
configured city, getWeatherByLocation fails with the no-data error (the
NotFoundError of the spec's taxonomy, carrying no response field) and the
city's route answers 500 with body error "伺服器錯誤". -/
theorem c4_not_found_mapping (apiKey : Option String)
    (fetch : String → Except JsError Envelope) (now : DateTime) (city : String)
    (env : Envelope)
    (hcity : city ∈ TAIWAN_CITIES)
    (hkey : jsFalsy apiKey = false)
    (hfetch : fetch city = .ok env)
    (hmiss : env.records.location.find? (fun loc => loc.locationName == city) = none) :
    getWeatherByLocation apiKey (fetch city) city =
      .error { message := "查無資料: 無法取得 " ++ city ++ " 天氣資料",
               response := none } ∧
    dispatch apiKey fetch now ("/api/weather/" ++ routeRegistrationSlug city) =
      { status := 500,
        body := .errBody "伺服器錯誤" ("無法取得 " ++ city ++ " 天氣資料，請稍後再試") } := by
  have hget : getWeatherByLocation apiKey (fetch city) city =
      .error { message := "查無資料: 無法取得 " ++ city ++ " 天氣資料",
               response := none } := by
    rw [hfetch]
    simp [getWeatherByLocation, hkey, hmiss]
  refine ⟨hget, ?_⟩
  rw [dispatch_weather_route apiKey fetch now city hcity, hget]
  have hni : jsIncludes ("查無資料: 無法取得 " ++ city ++ " 天氣資料") "CWA_API_KEY" = false := by
    fin_cases hcity <;> decide
  simp [handleWeatherRequest, hni]

/-- C4 witness: the not-found mapping evaluated for 新竹縣 against the
empty-location envelope. -/
theorem c4_witness :
    getWeatherByLocation (some "key") (okFetchEmpty "新竹縣") "新竹縣" =
      .error { message := "查無資料: 無法取得 " ++ "新竹縣" ++ " 天氣資料",
               response := none } ∧
    dispatch (some "key") okFetchEmpty dummyNow
        ("/api/weather/" ++ routeRegistrationSlug "新竹縣") =
      { status := 500,
        body := .errBody "伺服器錯誤"
          ("無法取得 " ++ "新竹縣" ++ " 天氣資料，請稍後再試") } :=
  c4_not_found_mapping (some "key") okFetchEmpty dummyNow "新竹縣" emptyEnv
    (by decide) rfl rfl rfl

/-- C9: for every configured city, the discovery document lists exactly the
path at which the city's weather route is registered, and that path is the
one obtained by replacing the first "縣" with "county", the first "市" with
"city", and lowercasing. -/
theorem c9_slug_consistency (city : String) (hcity : city ∈ TAIWAN_CITIES) :
    ∃ p, discoveryEndpoints.find? (fun kv => kv.1 == city) = some (city, p) ∧
      registeredWeatherRoutes.find? (fun r => r.2 == city) = some (p, city) ∧
      p = "/api/weather/" ++
        jsToLower (jsReplaceFirst (jsReplaceFirst city "縣" "county") "市" "city") := by
  fin_cases hcity <;> exact ⟨_, rfl, rfl, rfl⟩

/-- C9 witness: the slug consistency evaluated for 新竹縣. -/
theorem c9_witness :
    ∃ p, discoveryEndpoints.find? (fun kv => kv.1 == "新竹縣") = some ("新竹縣", p) ∧
      registeredWeatherRoutes.find? (fun r => r.2 == "新竹縣") = some (p, "新竹縣") ∧
      p = "/api/weather/" ++
        jsToLower (jsReplaceFirst (jsReplaceFirst "新竹縣" "縣" "county") "市" "city") :=
  c9_slug_consistency "新竹縣" (by decide)

/-- Reduction of the switch at element name "Wx". -/
theorem applyElement_Wx (f : Forecast) (v : Parameter) :
    applyElement f "Wx" v = { f with weather := v.parameterName } := by
  unfold applyElement
  rw [if_pos rfl]

/-- Reduction of the switch at element name "PoP". -/
theorem applyElement_PoP (f : Forecast) (v : Parameter) :
    applyElement f "PoP" v = { f with rain := v.parameterName ++ "%" } := by
  unfold applyElement
  rw [if_neg (by decide), if_pos rfl]

/-- Reduction of the switch at element name "MinT". -/
theorem applyElement_MinT (f : Forecast) (v : Parameter) :
    applyElement f "MinT" v = { f with minTemp := v.parameterName ++ "°C" } := by
  unfold applyElement
  rw [if_neg (by decide), if_neg (by decide), if_pos rfl]

/-- Reduction of the switch at element name "MaxT". -/
theorem applyElement_MaxT (f : Forecast) (v : Parameter) :
    applyElement f "MaxT" v = { f with maxTemp := v.parameterName ++ "°C" } := by
  unfold applyElement
  rw [if_neg (by decide), if_neg (by decide), if_neg (by decide), if_pos rfl]

/-- Reduction of the switch at element name "CI". -/
theorem applyElement_CI (f : Forecast) (v : Parameter) :
    applyElement f "CI" v = { f with comfort := v.parameterName } := by
  unfold applyElement
  rw [if_neg (by decide), if_neg (by decide), if_neg (by decide), if_neg (by decide),
    if_pos rfl]

/-- Unfolding one step of the element fold. -/
theorem foldlM_elementStep_cons (i : Nat) (f : Forecast) (a : WeatherElement)
    (t : List WeatherElement) :
    List.foldlM (elementStep i) f (a :: t) =
      (elementStep i f a).bind (fun f2 => List.foldlM (elementStep i) f2 t) := rfl

/-- A fold over elements none of which carries the target name leaves the
selected output field unchanged. -/
theorem foldlM_field_of_no_target (i : Nat) (sel : Forecast → String) (target : String)
    (hpres : ∀ (f : Forecast) (name : String) (v : Parameter),
      name ≠ target → sel (applyElement f name v) = sel f) :
    ∀ (l : List WeatherElement) (f r : Forecast),
      List.foldlM (elementStep i) f l = some r →
      (∀ e ∈ l, e.elementName ≠ target) → sel r = sel f := by
  intro l
  induction l with
  | nil =>
    intro f r hfold _
    have : f = r := Option.some.inj hfold
    rw [← this]
  | cons a t ih =>
    intro f r hfold hne
    rw [foldlM_elementStep_cons] at hfold
    cases hstep : elementStep i f a with
    | none => rw [hstep] at hfold; cases hfold
    | some f2 =>
      rw [hstep] at hfold
      have h2 : sel r = sel f2 :=
        ih f2 r hfold (fun e he => hne e (List.mem_cons_of_mem a he))
      unfold elementStep at hstep
      cases hsl : a.time[i]? with
      | none => rw [hsl] at hstep; cases hstep
      | some slot =>
        rw [hsl] at hstep
        have hf2 : f2 = applyElement f a.elementName slot.parameter :=
          (Option.some.inj hstep).symm
        rw [h2, hf2, hpres f a.elementName slot.parameter (hne a (List.mem_cons_self a t))]

/-- A successful fold over elements exactly one of which carries the target
name writes that element's slot-i parameter, suffixed, into the selected
field. -/
theorem foldlM_field_single_target (i : Nat) (sel : Forecast → String)
    (target sfx : String)
    (hpres : ∀ (f : Forecast) (name : String) (v : Parameter),
      name ≠ target → sel (applyElement f name v) = sel f)
    (hwrite : ∀ (f : Forecast) (v : Parameter),
      sel (applyElement f target v) = v.parameterName ++ sfx) :
    ∀ (l : List WeatherElement) (f r : Forecast) (e : WeatherElement) (s : TimeSlot),
      List.foldlM (elementStep i) f l = some r →
      l.filter (fun x => x.elementName == target) = [e] →
      e.time[i]? = some s →
      sel r = s.parameter.parameterName ++ sfx := by
  intro l
  induction l with
  | nil =>
    intro f r e s _ hfil _
    simp at hfil
  | cons a t ih =>
    intro f r e s hfold hfil hslot
    rw [foldlM_elementStep_cons] at hfold
    cases hstep : elementStep i f a with
    | none => rw [hstep] at hfold; cases hfold
    | some f2 =>
      rw [hstep] at hfold
      by_cases hname : a.elementName = target
      · have hfa : (a :: t).filter (fun x => x.elementName == target) =
            a :: t.filter (fun x => x.elementName == target) := by
          simp [List.filter_cons, hname]
        rw [hfa] at hfil
        obtain ⟨rfl, hft⟩ := List.cons.inj hfil
        have hnone : ∀ x ∈ t, x.elementName ≠ target := by
          intro x hx
          have := List.filter_eq_nil_iff.mp hft x hx
          simpa using this
        have hrest : sel r = sel f2 :=
          foldlM_field_of_no_target i sel target hpres t f2 r hfold hnone
        unfold elementStep at hstep
        rw [hslot] at hstep
        have hf2 : f2 = applyElement f a.elementName s.parameter :=
          (Option.some.inj hstep).symm
        rw [hrest, hf2, hname]
        exact hwrite f s.parameter
      · have hfa : (a :: t).filter (fun x => x.elementName == target) =
            t.filter (fun x => x.elementName == target) := by
          simp [List.filter_cons, hname]
        rw [hfa] at hfil
        exact ih f2 r e s hfold hfil hslot

/-- C5: in any record normalization builds for slot i, when the element list
carries exactly one PoP, one MinT and one MaxT element and their slot-i
values are present, the rain field is the PoP parameter value with a literal
"%" appended and the minTemp and maxTemp fields are the respective parameter
values with a literal "°C" appended — string concatenation on the parameter
strings, not numeric conversion. -/
theorem c5_suffix_concat (elements : List WeatherElement) (i : Nat) (r : Forecast)
    (ePop eMin eMax : WeatherElement) (sPop sMin sMax : TimeSlot)
    (hr : buildForecast elements i = some r)
    (hfp : elements.filter (fun x => x.elementName == "PoP") = [ePop])
    (hfmn : elements.filter (fun x => x.elementName == "MinT") = [eMin])
    (hfmx : elements.filter (fun x => x.elementName == "MaxT") = [eMax])
    (hsp : ePop.time[i]? = some sPop)
    (hsmn : eMin.time[i]? = some sMin)
    (hsmx : eMax.time[i]? = some sMax) :
    r.rain = sPop.parameter.parameterName ++ "%" ∧
    r.minTemp = sMin.parameter.parameterName ++ "°C" ∧
    r.maxTemp = sMax.parameter.parameterName ++ "°C" := by
  cases elements with
  | nil => cases hr
  | cons first rest =>
    simp only [buildForecast] at hr
    cases h0 : first.time[i]? with
    | none => rw [h0] at hr; cases hr
    | some slot0 =>
      rw [h0] at hr
      refine ⟨?_, ?_, ?_⟩
      · refine foldlM_field_single_target i (fun f => f.rain) "PoP" "%" ?_ ?_
          (first :: rest) _ r ePop sPop hr hfp hsp
        · intro f name v hne
          unfold applyElement
          split_ifs <;> simp_all
        · intro f v
          rw [applyElement_PoP]
      · refine foldlM_field_single_target i (fun f => f.minTemp) "MinT" "°C" ?_ ?_
          (first :: rest) _ r eMin sMin hr hfmn hsmn
        · intro f name v hne
          unfold applyElement
          split_ifs <;> simp_all
        · intro f v
          rw [applyElement_MinT]
      · refine foldlM_field_single_target i (fun f => f.maxTemp) "MaxT" "°C" ?_ ?_
          (first :: rest) _ r eMax sMax hr hfmx hsmx
        · intro f name v hne
          unfold applyElement
          split_ifs <;> simp_all
        · intro f v
          rw [applyElement_MaxT]

/-- C5 witness: the suffix invariants evaluated at slot 0 of the five sample
elements. -/
theorem c5_witness :
    ({ startTime := "2026-10-11 06:00:00", endTime := "2026-10-11 18:00:00",
       weather := "晴時多雲", rain := "10%", minTemp := "18°C", maxTemp := "27°C",
       comfort := "舒適", windSpeed := "" } : Forecast).rain = "10" ++ "%" ∧
    ({ startTime := "2026-10-11 06:00:00", endTime := "2026-10-11 18:00:00",
       weather := "晴時多雲", rain := "10%", minTemp := "18°C", maxTemp := "27°C",
       comfort := "舒適", windSpeed := "" } : Forecast).minTemp = "18" ++ "°C" ∧
    ({ startTime := "2026-10-11 06:00:00", endTime := "2026-10-11 18:00:00",
       weather := "晴時多雲", rain := "10%", minTemp := "18°C", maxTemp := "27°C",
       comfort := "舒適", windSpeed := "" } : Forecast).maxTemp = "27" ++ "°C" :=
  c5_suffix_concat [wxSample, popSample, minTSample, maxTSample, ciSample] 0 _
    popSample minTSample maxTSample
    ⟨"2026-10-11 06:00:00", "2026-10-11 18:00:00", ⟨"10"⟩⟩
    ⟨"2026-10-11 06:00:00", "2026-10-11 18:00:00", ⟨"18"⟩⟩
    ⟨"2026-10-11 06:00:00", "2026-10-11 18:00:00", ⟨"27"⟩⟩
    rfl rfl rfl rfl rfl rfl rfl

/-- Under the per-element slot-count invariant the fold over the elements of
a block never fails. -/
theorem foldlM_elementStep_isSome (i : Nat) :
    ∀ l : List WeatherElement, (∀ e ∈ l, i < e.time.length) →
      ∀ f : Forecast, (List.foldlM (elementStep i) f l).isSome = true := by
  intro l
  induction l with
  | nil => intro _ f; rfl
  | cons a t ih =>
    intro h f
    have ha : i < a.time.length := h a (List.mem_cons_self a t)
    rw [foldlM_elementStep_cons]
    unfold elementStep
    rw [List.getElem?_eq_getElem ha]
    exact ih (fun e he => h e (List.mem_cons_of_mem a he)) _

/-- C6: normalization is total under the stated invariant — for every
locality block with at least one weather element in which every element's
time array has the same length as the first element's, the normalizer
reaches no error branch and returns a result (it is a pure Lean function, so
it performs no I/O by construction). -/
theorem c6_normalization_total (name desc issue : String) (block : LocationBlock)
    (first : WeatherElement) (rest : List WeatherElement)
    (hblock : block.weatherElement = first :: rest)
    (hlen : ∀ e ∈ block.weatherElement, e.time.length = first.time.length) :
    ∃ w, normalizeLocation name desc issue block = some w := by
  have hb : ∀ i ∈ List.range first.time.length,
      (buildForecast (first :: rest) i).isSome = true := by
    intro i hi
    have hi2 : i < first.time.length := List.mem_range.mp hi
    simp only [buildForecast]
    rw [List.getElem?_eq_getElem hi2]
    exact foldlM_elementStep_isSome i (first :: rest)
      (fun e he => by rw [hlen e (by rw [hblock]; exact he)]; exact hi2) _
  obtain ⟨fs, hfs⟩ := Option.isSome_iff_exists.mp
    (optionMapM_isSome (buildForecast (first :: rest)) (List.range first.time.length) hb)
  refine ⟨{ city := name, datasetDescription := desc, dataUpdateTime := issue,
            forecasts := fs }, ?_⟩
  simp only [normalizeLocation, hblock]
  rw [hfs]

/-- C6 witness: totality evaluated on a block of the five sample elements,
all of slot count 2. -/
theorem c6_witness :
    ∃ w, normalizeLocation "新竹縣" "desc" "time"
      ⟨"新竹縣", [wxSample, popSample, minTSample, maxTSample, ciSample]⟩ = some w :=
  c6_normalization_total "新竹縣" "desc" "time"
    ⟨"新竹縣", [wxSample, popSample, minTSample, maxTSample, ciSample]⟩
    wxSample [popSample, minTSample, maxTSample, ciSample] rfl (by decide)

/-- Proof auxiliary: the record slot `i` of the canonical five-element block
normalizes to, with slots read total via getD. -/
def expectedRecord (wx pop mnT mxT ci : WeatherElement) (i : Nat) : Forecast :=
  { startTime := (wx.time.getD i ⟨"", "", ⟨""⟩⟩).startTime,
    endTime := (wx.time.getD i ⟨"", "", ⟨""⟩⟩).endTime,
    weather := (wx.time.getD i ⟨"", "", ⟨""⟩⟩).parameter.parameterName,
    rain := (pop.time.getD i ⟨"", "", ⟨""⟩⟩).parameter.parameterName ++ "%",
    minTemp := (mnT.time.getD i ⟨"", "", ⟨""⟩⟩).parameter.parameterName ++ "°C",
    maxTemp := (mxT.time.getD i ⟨"", "", ⟨""⟩⟩).parameter.parameterName ++ "°C",
    comfort := (ci.time.getD i ⟨"", "", ⟨""⟩⟩).parameter.parameterName,
    windSpeed := "" }

/-- C1: for a locality block whose five weather elements are the recognized
kinds Wx, PoP, MinT, MaxT, CI (in dataset order), each with exactly N time
slots, normalization yields exactly N records in input slot order: record i
takes startTime and endTime from the first element's slot i, the weather,
rain, minTemp, maxTemp and comfort fields from the respective element's slot
i parameter, and windSpeed is always the empty string. -/
theorem c1_normalization_shape (name desc issue : String)
    (wx pop mnT mxT ci : WeatherElement) (N : Nat)
    (hwx : wx.elementName = "Wx") (hpop : pop.elementName = "PoP")
    (hmn : mnT.elementName = "MinT") (hmx : mxT.elementName = "MaxT")
    (hci : ci.elementName = "CI")
    (lwx : wx.time.length = N) (lpop : pop.time.length = N)
    (lmn : mnT.time.length = N) (lmx : mxT.time.length = N)
    (lci : ci.time.length = N) :
    ∃ w : WeatherData,
      normalizeLocation name desc issue ⟨name, [wx, pop, mnT, mxT, ci]⟩ = some w ∧
      w.city = name ∧ w.forecasts.length = N ∧
      ∀ (i : Nat) (sW sP sMn sMx sC : TimeSlot),
        wx.time[i]? = some sW → pop.time[i]? = some sP →
        mnT.time[i]? = some sMn → mxT.time[i]? = some sMx →
        ci.time[i]? = some sC →
        w.forecasts[i]? = some
          { startTime := sW.startTime, endTime := sW.endTime,
            weather := sW.parameter.parameterName,
            rain := sP.parameter.parameterName ++ "%",
            minTemp := sMn.parameter.parameterName ++ "°C",
            maxTemp := sMx.parameter.parameterName ++ "°C",
            comfort := sC.parameter.parameterName,
            windSpeed := "" } := by
  have hbuild : ∀ i ∈ List.range wx.time.length,
      buildForecast [wx, pop, mnT, mxT, ci] i =
        some (expectedRecord wx pop mnT mxT ci i) := by
    intro i hi
    have hiN : i < N := by
      have := List.mem_range.mp hi
      omega
    have hW := getElem?_eq_getD wx.time i ⟨"", "", ⟨""⟩⟩ (by omega)
    have hP := getElem?_eq_getD pop.time i ⟨"", "", ⟨""⟩⟩ (by omega)
    have hMn := getElem?_eq_getD mnT.time i ⟨"", "", ⟨""⟩⟩ (by omega)
    have hMx := getElem?_eq_getD mxT.time i ⟨"", "", ⟨""⟩⟩ (by omega)
    have hC := getElem?_eq_getD ci.time i ⟨"", "", ⟨""⟩⟩ (by omega)
    simp only [buildForecast, foldlM_elementStep_cons, elementStep,
      hW, hP, hMn, hMx, hC, hwx, hpop, hmn, hmx, hci, Option.some_bind]
    rfl
  refine ⟨{ city := name, datasetDescription := desc, dataUpdateTime := issue,
            forecasts :=
              (List.range wx.time.length).map (expectedRecord wx pop mnT mxT ci) },
    ?_, rfl, ?_, ?_⟩
  · simp only [normalizeLocation]
    rw [optionMapM_eq_map _ _ _ hbuild]
  · show ((List.range wx.time.length).map (expectedRecord wx pop mnT mxT ci)).length = N
    simp only [List.length_map, List.length_range]
    exact lwx
  · intro i sW sP sMn sMx sC hW0 hP0 hMn0 hMx0 hC0
    have hiW : i < wx.time.length := by
      obtain ⟨h, _⟩ := List.getElem?_eq_some_iff.mp hW0
      exact h
    show ((List.range wx.time.length).map (expectedRecord wx pop mnT mxT ci))[i]? = _
    rw [List.getElem?_map, List.getElem?_range hiW]
    show some (expectedRecord wx pop mnT mxT ci i) = _
    simp only [expectedRecord, List.getD_eq_getElem?_getD,
      hW0, hP0, hMn0, hMx0, hC0, Option.getD_some]

/-- C1 witness: the normalization shape evaluated on the five sample
elements with two slots each. -/
theorem c1_witness :
    ∃ w : WeatherData,
      normalizeLocation "新竹縣" "desc" "time"
        ⟨"新竹縣", [wxSample, popSample, minTSample, maxTSample, ciSample]⟩ = some w ∧
      w.city = "新竹縣" ∧ w.forecasts.length = 2 ∧
      ∀ (i : Nat) (sW sP sMn sMx sC : TimeSlot),
        wxSample.time[i]? = some sW → popSample.time[i]? = some sP →
        minTSample.time[i]? = some sMn → maxTSample.time[i]? = some sMx →
        ciSample.time[i]? = some sC →
        w.forecasts[i]? = some
          { startTime := sW.startTime, endTime := sW.endTime,
            weather := sW.parameter.parameterName,
            rain := sP.parameter.parameterName ++ "%",
            minTemp := sMn.parameter.parameterName ++ "°C",
            maxTemp := sMx.parameter.parameterName ++ "°C",
            comfort := sC.parameter.parameterName,
            windSpeed := "" } :=
  c1_normalization_shape "新竹縣" "desc" "time" wxSample popSample minTSample
    maxTSample ciSample 2 rfl rfl rfl rfl rfl rfl rfl rfl rfl rfl

/-- C7: the health route answers 200 with status "OK" and the current
time's toISOString rendering, for every API-key configuration and every
upstream availability (dispatch never consults either for this path), and
that timestamp is a parseable ISO8601 string: the shape parser recovers
exactly the printed components. -/
theorem c7_health_endpoint (apiKey : Option String)
    (fetch : String → Except JsError Envelope) (now : DateTime)
    (hy : now.year < 10000) (hmo : now.month < 100) (hd : now.day < 100)
    (hh : now.hour < 100) (hmi : now.minute < 100) (hs : now.second < 100)
    (hms : now.millis < 1000) :
    dispatch apiKey fetch now "/api/health" =
      { status := 200, body := .health "OK" (toISOString now) } ∧
    parseISO8601 (toISOString now) = some now := by
  refine ⟨rfl, ?_⟩
  have hdata : (toISOString now).data =
      [digitChar (now.year / 1000), digitChar (now.year / 100), digitChar (now.year / 10),
       digitChar now.year, '-', digitChar (now.month / 10), digitChar now.month, '-',
       digitChar (now.day / 10), digitChar now.day, 'T', digitChar (now.hour / 10),
       digitChar now.hour, ':', digitChar (now.minute / 10), digitChar now.minute, ':',
       digitChar (now.second / 10), digitChar now.second, '.', digitChar (now.millis / 100),
       digitChar (now.millis / 10), digitChar now.millis, 'Z'] := rfl
  unfold parseISO8601
  rw [hdata]
  simp only [digitVal_digitChar]
  rw [if_pos ⟨trivial, trivial, trivial, trivial, trivial, trivial, trivial⟩,
    Option.some.injEq]
  show DateTime.mk _ _ _ _ _ _ _ =
    DateTime.mk now.year now.month now.day now.hour now.minute now.second now.millis
  rw [DateTime.mk.injEq]
  refine ⟨?_, ?_, ?_, ?_, ?_, ?_, ?_⟩ <;> omega

/-- C7 witness: the health response evaluated at a concrete time. -/
theorem c7_witness :
    dispatch none dummyFetch ⟨2026, 10, 11, 3, 4, 5, 67⟩ "/api/health" =
      { status := 200, body := .health "OK" (toISOString ⟨2026, 10, 11, 3, 4, 5, 67⟩) } ∧
    parseISO8601 (toISOString ⟨2026, 10, 11, 3, 4, 5, 67⟩) =
      some ⟨2026, 10, 11, 3, 4, 5, 67⟩ :=
  c7_health_endpoint none dummyFetch ⟨2026, 10, 11, 3, 4, 5, 67⟩
    (by decide) (by decide) (by decide) (by decide) (by decide) (by decide) (by decide)
